import Mathlib

/-!
Shallow embedding of the speech-to-braille streaming client.

The embedded code is the WebSocket hook `useSpeechToBrailleWebSocket`
(connection state machine, reconnection backoff, message dispatch,
outbound sends) together with the derived user-facing status of the
`SpeechToBraille` component and the `getBrailleDots` helper of
`BrailleTranslator`.

React `useState` setters become field updates on an explicit `HookState`
record; `useRef` cells (`wsRef`, `reconnectTimeoutRef`,
`reconnectAttemptsRef`) become fields of the same record.  The WebSocket
handle `wsRef` is modelled by the `readyState` of the socket it points to
(`none` when the ref is null).  A pending reconnection timer is modelled
as `reconnectTimeout : Option Nat` carrying the scheduled delay in
milliseconds; the timer firing and transport events are separate
transition functions, since they are delivered by the host run-loop.
Functions that call `ws.send` return the list of frames sent by that call
alongside the new state.
-/

/-- Connection status of the hook, source type `ConnectionStatus`. -/
inductive ConnectionStatus
  | disconnected
  | connecting
  | connected
  | ready
  | error
deriving DecidableEq

/-- Browser WebSocket readyState constants. -/
inductive WsReadyState
  | CONNECTING
  | OPEN
  | CLOSING
  | CLOSED
deriving DecidableEq

/-- Source interface `WebSocketConfig`. -/
structure WebSocketConfig where
  braille_table : Option String
  language : Option String
  task : Option String
deriving DecidableEq

/-- Source interface `WordTimestamp`. -/
structure WordTimestamp where
  word : String
  start : Rat
  «end» : Rat
  probability : Rat
deriving DecidableEq

/-- Source interface `SegmentTimestamp`. -/
structure SegmentTimestamp where
  id : Nat
  start : Rat
  «end» : Rat
  text : String
  words : Option (List WordTimestamp)
  avg_logprob : Rat
  no_speech_prob : Rat
deriving DecidableEq

/-- Source interface `ResultMessage` (without the constant tag field). -/
structure ResultMessage where
  transcribed_text : String
  braille : String
  language : Option String
  table_used : String
  audio_duration : Option Rat
  segments : Option (List SegmentTimestamp)
  success : Bool
deriving DecidableEq

/-- Source interface `StatusMessage` (without the constant tag field). -/
structure StatusInfo where
  recording : Bool
  buffer_size : Nat
  duration_seconds : Rat
deriving DecidableEq

/-- Inbound frames after JSON parsing: the tagged union `ServerMessage`.
`unknownType` stands for any frame whose `type` field is missing or is
none of the recognized tags; the `switch` of `handleMessage` has no case
for it (nor for `vad_status`), so such frames fall through. -/
inductive ServerMessage
  | ready (message : String) (model : String)
  | config_updated (config : WebSocketConfig)
  | recording_started (message : Option String)
  | recording_stopped (message : Option String)
  | speech_started (message : String)
  | speech_ended (message : String)
  | vad_status (enabled : Bool) (is_speech_active : Bool) (probability : Rat)
  | status (info : StatusInfo)
  | processing (message : String)
  | result (r : ResultMessage)
  | error (message : String) (success : Option Bool)
  | unknownType
deriving DecidableEq

/-- Outbound frames produced by `ws.send`. -/
inductive ClientMessage
  | start_recording
  | stop_recording
  | config (config : WebSocketConfig)
  | audioFrame (samples : Nat)
deriving DecidableEq

/-- The mutable state of one `useSpeechToBrailleWebSocket` instance:
its `useRef` cells and `useState` variables. -/
structure HookState where
  ws : Option WsReadyState
  reconnectTimeout : Option Nat
  reconnectAttempts : Nat
  connectionStatus : ConnectionStatus
  error : Option String
  isRecording : Bool
  isSpeaking : Bool
  isProcessing : Bool
  result : Option ResultMessage
  accumulatedResults : List ResultMessage
  statusInfo : Option StatusInfo
deriving DecidableEq

/-- Initial values of all refs and state hooks. -/
def initialState : HookState :=
  { ws := none
    reconnectTimeout := none
    reconnectAttempts := 0
    connectionStatus := ConnectionStatus.disconnected
    error := none
    isRecording := false
    isSpeaking := false
    isProcessing := false
    result := none
    accumulatedResults := []
    statusInfo := none }

/-- Whether `wsRef.current` exists and its `readyState` is `WebSocket.OPEN`:
the guard `wsRef.current?.readyState === WebSocket.OPEN` used by `connect`,
and the negation of `!wsRef.current || wsRef.current.readyState !==
WebSocket.OPEN` used by the send paths. -/
def wsOpen (s : HookState) : Bool :=
  match s.ws with
  | some WsReadyState.OPEN => true
  | _ => false

/-- Source `handleMessage`: dispatch of one parsed inbound frame.  The
argument is `none` when `JSON.parse` throws, in which case the `catch`
only logs and no state was mutated. -/
def handleMessage (s : HookState) (ev : Option ServerMessage) : HookState :=
  match ev with
  | none => s
  | some msg =>
    match msg with
    | ServerMessage.ready _ _ =>
        { s with connectionStatus := ConnectionStatus.ready
                 error := none
                 reconnectAttempts := 0 }
    | ServerMessage.config_updated _ => s
    | ServerMessage.recording_started _ =>
        { s with isRecording := true
                 error := none
                 accumulatedResults := []
                 result := none }
    | ServerMessage.recording_stopped _ =>
        { s with isRecording := false, isSpeaking := false }
    | ServerMessage.speech_started _ => { s with isSpeaking := true }
    | ServerMessage.speech_ended _ => { s with isSpeaking := false }
    | ServerMessage.vad_status _ _ _ => s
    | ServerMessage.status info => { s with statusInfo := some info }
    | ServerMessage.processing _ => { s with isProcessing := true }
    | ServerMessage.result r =>
        { s with result := some r
                 accumulatedResults := s.accumulatedResults ++ [r]
                 isProcessing := false }
    | ServerMessage.error m _ =>
        { s with error := some m, isProcessing := false }
    | ServerMessage.unknownType => s

/-- Source `handleError` (the `ws.onerror` handler). -/
def handleError (s : HookState) : HookState :=
  { s with error := some "Connection error occurred"
           connectionStatus := ConnectionStatus.error }

/-- Source `handleClose` (the `ws.onclose` handler).  It does not test
whether the close was caused by an explicit `disconnect()`: whenever
`reconnectAttemptsRef.current < 5` it schedules a reconnection after
`min(1000 * 2 ** attempts, 10000)` ms, otherwise it reports the
persistent-connectivity error. -/
def handleClose (s : HookState) : HookState :=
  let s1 := { s with connectionStatus := ConnectionStatus.disconnected
                     isRecording := false
                     isSpeaking := false
                     isProcessing := false }
  if s1.reconnectAttempts < 5 then
    { s1 with reconnectTimeout := some (min (1000 * 2 ^ s1.reconnectAttempts) 10000) }
  else
    { s1 with error := some "Failed to reconnect after multiple attempts" }

/-- Source `connect`.  A bail-out when the socket is already open;
otherwise status goes to connecting, the error is cleared and a fresh
WebSocket (readyState CONNECTING) is stored in `wsRef`.  The `catch`
branch only triggers when the `WebSocket` constructor throws (malformed
URL) and is outside this model, whose URL is the fixed default. -/
def connect (s : HookState) : HookState :=
  if wsOpen s then s
  else
    { s with connectionStatus := ConnectionStatus.connecting
             error := none
             ws := some WsReadyState.CONNECTING }

/-- Source `disconnect`: clear the pending reconnection timer
(`clearTimeout` + null), close and drop the socket, force disconnected
state.  The browser will still deliver the socket's close event later;
that event is `transportClose`. -/
def disconnect (s : HookState) : HookState :=
  { s with reconnectTimeout := none
           ws := none
           connectionStatus := ConnectionStatus.disconnected
           isRecording := false
           isSpeaking := false
           isProcessing := false }

/-- Source `startRecording`: guard on an open transport, else report
"Not connected to server"; on success clear `result` and `statusInfo`
and send one `start_recording` frame. -/
def startRecording (s : HookState) : HookState × List ClientMessage :=
  if wsOpen s then
    ({ s with result := none, statusInfo := none }, [ClientMessage.start_recording])
  else
    ({ s with error := some "Not connected to server" }, [])

/-- Source `stopRecording`: silently a no-op when the transport is not
open, else send one `stop_recording` frame. -/
def stopRecording (s : HookState) : HookState × List ClientMessage :=
  if wsOpen s then (s, [ClientMessage.stop_recording]) else (s, [])

/-- Source `sendAudioChunk`: drop the frame when the transport is not
open, else send the samples as one binary frame. -/
def sendAudioChunk (s : HookState) (samples : Nat) : HookState × List ClientMessage :=
  if wsOpen s then (s, [ClientMessage.audioFrame samples]) else (s, [])

/-- Source `updateConfig`: guard on an open transport, else report
"Not connected to server"; on success send one `config` frame.  (No
local state is updated by this function.) -/
def updateConfig (s : HookState) (config : WebSocketConfig) : HookState × List ClientMessage :=
  if wsOpen s then (s, [ClientMessage.config config])
  else
    ({ s with error := some "Not connected to server" }, [])

/-- Environment transition: the transport finishes opening.  The browser
moves the socket's readyState to OPEN and invokes the `ws.onopen`
handler, which sets the status to connected. -/
def transportOpen (s : HookState) : HookState :=
  { s with ws := s.ws.map (fun _ => WsReadyState.OPEN)
           connectionStatus := ConnectionStatus.connected }

/-- Environment transition: the transport closes.  The browser moves the
socket's readyState to CLOSED and invokes the `ws.onclose` handler
`handleClose`. -/
def transportClose (s : HookState) : HookState :=
  handleClose { s with ws := s.ws.map (fun _ => WsReadyState.CLOSED) }

/-- Environment transition: a pending reconnection timer fires.  The
`setTimeout` callback increments `reconnectAttemptsRef` and calls
`connect`; the timer is no longer pending. -/
def timerFire (s : HookState) : HookState :=
  match s.reconnectTimeout with
  | none => s
  | some _ =>
      connect { s with reconnectTimeout := none
                       reconnectAttempts := s.reconnectAttempts + 1 }

/-- Iterated crash scenario: the transport closes; if a reconnection got
scheduled, record its delay, let the timer fire (which reconnects), and
let that connection crash again.  Returns the delays observed and the
final state. -/
def crashLoop : Nat → HookState → List Nat × HookState
  | 0, s => ([], s)
  | n + 1, s =>
      let s1 := transportClose s
      match s1.reconnectTimeout with
      | some d =>
          let p := crashLoop n (timerFire s1)
          (d :: p.1, p.2)
      | none => ([], s1)

/-- Derived user-facing status of the `SpeechToBraille` component,
source type `StatusType`. -/
inductive StatusType
  | idle
  | listening
  | processing
  | success
  | error
deriving DecidableEq

/-- JavaScript truthiness of `wsError : string | null`: both `null` and
the empty string are falsy. -/
def truthy (s : Option String) : Bool :=
  match s with
  | none => false
  | some str => str != ""

/-- The `status` derivation of `SpeechToBraille`: the conditional chain
`wsError ? error : isProcessing ? processing : result ? success :
wsIsRecording ? listening : idle`.  A non-null `result` object is always
truthy, so that test is `Option.isSome`. -/
def deriveStatus (wsError : Option String) (isProcessing : Bool)
    (result : Option ResultMessage) (isRecording : Bool) : StatusType :=
  if truthy wsError then StatusType.error
  else if isProcessing then StatusType.processing
  else if result.isSome then StatusType.success
  else if isRecording then StatusType.listening
  else StatusType.idle

/-- Source `getBrailleDots` of `BrailleTranslator.tsx` (identical to the
copy in the `SpeechToBraille` component), on the code point of the
character. -/
def getBrailleDots (codePoint : Nat) : List Nat :=
  if codePoint < 0x2800 ∨ 0x28FF < codePoint then []
  else
    let offset := codePoint - 0x2800
    let dots : List Nat := []
    let dots := if offset &&& 0x01 ≠ 0 then dots ++ [1] else dots
    let dots := if offset &&& 0x02 ≠ 0 then dots ++ [2] else dots
    let dots := if offset &&& 0x04 ≠ 0 then dots ++ [3] else dots
    let dots := if offset &&& 0x08 ≠ 0 then dots ++ [4] else dots
    let dots := if offset &&& 0x10 ≠ 0 then dots ++ [5] else dots
    let dots := if offset &&& 0x20 ≠ 0 then dots ++ [6] else dots
    let dots := if offset &&& 0x40 ≠ 0 then dots ++ [7] else dots
    let dots := if offset &&& 0x80 ≠ 0 then dots ++ [8] else dots
    dots

/-- One `result` dispatch, the step function of a recording session. -/
def stepResult (s : HookState) (r : ResultMessage) : HookState :=
  handleMessage s (some (ServerMessage.result r))

/-- State reached by connecting from scratch and letting the transport
open: status connected, socket open, `ready` not yet received. -/
def connectedState : HookState := transportOpen (connect initialState)

/-- State after the automatic-reconnection ceiling: five crashed
reconnection attempts starting from a first connect. -/
def exhaustedState : HookState := (crashLoop 6 (connect initialState)).2

/-- A concrete inbound result used in counterexamples. -/
def sampleResult : ResultMessage :=
  { transcribed_text := "hello"
    braille := "⠓⠑⠇⠇⠕"
    language := some "en"
    table_used := "en-ueb-g2.ctb"
    audio_duration := some 2
    segments := none
    success := true }

/-- A concrete configuration used in counterexamples and witnesses. -/
def configExample : WebSocketConfig :=
  { braille_table := some "en-ueb-g2.ctb"
    language := none
    task := some "transcribe" }

/-- C1.  `disconnect()` does cancel the pending timer and force the
disconnected state, but the transport-close event caused by that very
`disconnect()` still runs `handleClose`, which (attempt counter 0 < 5)
schedules a new reconnection after 1000 ms — contradicting the claim
that no reconnection is ever scheduled after an explicit disconnect. -/
theorem disconnect_close_event_still_schedules_reconnect :
    (disconnect connectedState).reconnectTimeout = none ∧
    (disconnect connectedState).connectionStatus = ConnectionStatus.disconnected ∧
    (transportClose (disconnect connectedState)).reconnectTimeout = some 1000 := by
  decide

/-- C2.  Backoff policy of `handleClose`: for an attempt counter below 5
a reconnection is scheduled after exactly `min(1000 * 2^n, 10000)` ms;
at counter 5 nothing is scheduled and the persistent-connectivity error
is reported; over five consecutive crashed reconnects from a fresh
connect the observed delays are 1000, 2000, 4000, 8000, 10000 ms. -/
theorem reconnect_backoff_policy :
    (∀ s : HookState, s.reconnectAttempts < 5 →
        (handleClose s).reconnectTimeout
          = some (min (1000 * 2 ^ s.reconnectAttempts) 10000)) ∧
    (∀ s : HookState, 5 ≤ s.reconnectAttempts →
        (handleClose s).reconnectTimeout = s.reconnectTimeout ∧
        (handleClose s).error = some "Failed to reconnect after multiple attempts") ∧
    (crashLoop 6 (connect initialState)).1 = [1000, 2000, 4000, 8000, 10000] ∧
    exhaustedState.error = some "Failed to reconnect after multiple attempts" ∧
    exhaustedState.reconnectTimeout = none := by
  refine ⟨?_, ?_, by decide, by decide, by decide⟩
  · intro s h
    simp [handleClose, h]
  · intro s h
    have h5 : ¬ s.reconnectAttempts < 5 := by omega
    simp [handleClose, h5]

/-- C2 witness: the backoff theorem applied at the attempt counter 3. -/
theorem reconnect_backoff_policy_witness :
    (handleClose { initialState with reconnectAttempts := 3 }).reconnectTimeout
      = some 8000 := by
  have h := reconnect_backoff_policy.1 { initialState with reconnectAttempts := 3 }
    (by decide)
  simpa using h

/-- C3 counterexample: in the exhausted state (attempt counter 5) a
further explicit `connect()` starts connecting but leaves the attempt
counter at 5 instead of resetting it to 0, as the claim states. -/
theorem connect_does_not_reset_attempts :
    exhaustedState.reconnectAttempts = 5 ∧
    (connect exhaustedState).connectionStatus = ConnectionStatus.connecting ∧
    (connect exhaustedState).reconnectAttempts = 5 ∧
    (connect exhaustedState).reconnectAttempts ≠ 0 := by
  decide

/-- C3 amended: after the ceiling, an explicit `connect()` initiates a
new connection attempt (status connecting, error cleared, fresh socket)
but does not change the attempt counter; the counter is reset to 0 only
when a `ready` message is subsequently received. -/
theorem connect_after_exhaustion (s : HookState) (m mo : String)
    (h5 : s.reconnectAttempts = 5) (hws : wsOpen s = false) :
    (connect s).connectionStatus = ConnectionStatus.connecting ∧
    (connect s).error = none ∧
    (connect s).ws = some WsReadyState.CONNECTING ∧
    (connect s).reconnectAttempts = 5 ∧
    (handleMessage (connect s) (some (ServerMessage.ready m mo))).reconnectAttempts
      = 0 ∧
    (handleMessage (connect s) (some (ServerMessage.ready m mo))).connectionStatus
      = ConnectionStatus.ready := by
  have hws' : wsOpen s = false := hws
  simp [connect, hws', handleMessage, h5]

/-- C3 witness: the amended theorem applied at the exhausted state. -/
theorem connect_after_exhaustion_witness :
    (connect exhaustedState).connectionStatus = ConnectionStatus.connecting ∧
    (connect exhaustedState).error = none ∧
    (connect exhaustedState).ws = some WsReadyState.CONNECTING ∧
    (connect exhaustedState).reconnectAttempts = 5 ∧
    (handleMessage (connect exhaustedState)
        (some (ServerMessage.ready "ok" "base"))).reconnectAttempts = 0 ∧
    (handleMessage (connect exhaustedState)
        (some (ServerMessage.ready "ok" "base"))).connectionStatus
      = ConnectionStatus.ready :=
  connect_after_exhaustion exhaustedState "ok" "base" (by decide) (by decide)

/-- C4 counterexample: in the connected-but-not-ready state (transport
open, `ready` message not yet received) `updateConfig` sends a config
frame and reports no error, although ConnectionState is not ready. -/
theorem updateConfig_sends_in_connected_state :
    connectedState.connectionStatus = ConnectionStatus.connected ∧
    connectedState.connectionStatus ≠ ConnectionStatus.ready ∧
    (updateConfig connectedState configExample).2
      = [ClientMessage.config configExample] ∧
    (updateConfig connectedState configExample).1.error = none := by
  decide

/-- C4 amended: `updateConfig` is gated on the transport being open, not
on ConnectionState == ready; with an open transport it sends exactly one
config frame, otherwise it reports "Not connected to server" and sends
nothing. -/
theorem updateConfig_transport_gate (s : HookState) (cfg : WebSocketConfig) :
    (wsOpen s = true → updateConfig s cfg = (s, [ClientMessage.config cfg])) ∧
    (wsOpen s = false →
        updateConfig s cfg
          = ({ s with error := some "Not connected to server" }, [])) := by
  constructor <;> intro h <;> simp [updateConfig, h]

/-- C4 witness: the gate theorem applied at the open-transport state and
at the initial state. -/
theorem updateConfig_transport_gate_witness :
    updateConfig connectedState configExample
      = (connectedState, [ClientMessage.config configExample]) ∧
    updateConfig initialState configExample
      = ({ initialState with error := some "Not connected to server" }, []) :=
  ⟨(updateConfig_transport_gate connectedState configExample).1 (by decide),
   (updateConfig_transport_gate initialState configExample).2 (by decide)⟩

/-- C5 counterexample: in the connected-but-not-ready state
`startRecording` sends a start_recording frame and reports no error,
although ConnectionState is not ready. -/
theorem startRecording_sends_in_connected_state :
    connectedState.connectionStatus ≠ ConnectionStatus.ready ∧
    (startRecording connectedState).2 = [ClientMessage.start_recording] ∧
    (startRecording connectedState).1.error = none := by
  decide

/-- C5 amended: `startRecording` is gated on the transport being open,
not on ConnectionState == ready; with an open transport it clears the
latest result and the status snapshot and sends exactly one
start_recording frame, otherwise it reports "Not connected to server"
and sends nothing. -/
theorem startRecording_transport_gate (s : HookState) :
    (wsOpen s = true →
        startRecording s
          = ({ s with result := none, statusInfo := none },
             [ClientMessage.start_recording])) ∧
    (wsOpen s = false →
        startRecording s
          = ({ s with error := some "Not connected to server" }, [])) := by
  constructor <;> intro h <;> simp [startRecording, h]

/-- C5 witness: the gate theorem applied at the open-transport state and
at the initial state. -/
theorem startRecording_transport_gate_witness :
    startRecording connectedState
      = ({ connectedState with result := none, statusInfo := none },
         [ClientMessage.start_recording]) ∧
    startRecording initialState
      = ({ initialState with error := some "Not connected to server" }, []) :=
  ⟨(startRecording_transport_gate connectedState).1 (by decide),
   (startRecording_transport_gate initialState).2 (by decide)⟩

/-- Auxiliary for C6: a run of `result` dispatches appends the received
results to the accumulation, in receipt order. -/
theorem foldl_stepResult_accumulated (rs : List ResultMessage) :
    ∀ s : HookState,
      (rs.foldl stepResult s).accumulatedResults = s.accumulatedResults ++ rs := by
  induction rs with
  | nil => intro s; simp
  | cons r t ih =>
      intro s
      simp [List.foldl_cons, ih, stepResult, handleMessage]

/-- Auxiliary for C6: a run of `result` dispatches preserves the
invariant that the latest-result reference is the last accumulated
segment. -/
theorem foldl_stepResult_latest (rs : List ResultMessage) :
    ∀ s : HookState, s.result = s.accumulatedResults.getLast? →
      (rs.foldl stepResult s).result
        = (rs.foldl stepResult s).accumulatedResults.getLast? := by
  induction rs with
  | nil => intro s h; simpa using h
  | cons r t ih =>
      intro s h
      apply ih
      simp [stepResult, handleMessage]

/-- C6.  From any prior state, `recording_started` resets the
accumulation to empty and clears the latest-result reference; after N
subsequent `result` events the accumulation holds exactly those N
segments in receipt order and the latest-result reference is the last
one appended. -/
theorem recording_session_accumulation (s : HookState) (m : Option String)
    (rs : List ResultMessage) :
    (handleMessage s (some (ServerMessage.recording_started m))).accumulatedResults
      = [] ∧
    (handleMessage s (some (ServerMessage.recording_started m))).result = none ∧
    (rs.foldl stepResult
        (handleMessage s (some (ServerMessage.recording_started m)))).accumulatedResults
      = rs ∧
    (rs.foldl stepResult
        (handleMessage s (some (ServerMessage.recording_started m)))).result
      = rs.getLast? := by
  have hacc :
      (handleMessage s (some (ServerMessage.recording_started m))).accumulatedResults
        = [] := rfl
  have hres :
      (handleMessage s (some (ServerMessage.recording_started m))).result = none := rfl
  have h1 := foldl_stepResult_accumulated rs
    (handleMessage s (some (ServerMessage.recording_started m)))
  have h2 := foldl_stepResult_latest rs
    (handleMessage s (some (ServerMessage.recording_started m)))
    (by rw [hacc, hres]; rfl)
  rw [hacc] at h1
  refine ⟨hacc, hres, by simpa using h1, ?_⟩
  rw [h2, h1]
  simp

/-- C7 counterexample: with the error message set to the empty string
and processing true, the derived status is processing, not error — the
conditional chain tests JavaScript truthiness and the empty string is
falsy. -/
theorem empty_error_message_yields_processing_status :
    deriveStatus (some "") true none false = StatusType.processing ∧
    StatusType.processing ≠ StatusType.error := by
  decide

/-- C7 amended: the derived status is a deterministic first-match
function with precedence error > processing > result-present >
recording > idle, where the error branch requires a truthy (non-null,
nonempty) error message; in particular any nonempty error message
together with processing yields error. -/
theorem deriveStatus_precedence (err : Option String) (p : Bool)
    (res : Option ResultMessage) (rec : Bool) :
    (truthy err = true → deriveStatus err p res rec = StatusType.error) ∧
    (truthy err = false → p = true →
        deriveStatus err p res rec = StatusType.processing) ∧
    (truthy err = false → p = false → res.isSome = true →
        deriveStatus err p res rec = StatusType.success) ∧
    (truthy err = false → p = false → res.isSome = false → rec = true →
        deriveStatus err p res rec = StatusType.listening) ∧
    (truthy err = false → p = false → res.isSome = false → rec = false →
        deriveStatus err p res rec = StatusType.idle) ∧
    (∀ m : String, m ≠ "" →
        deriveStatus (some m) true res rec = StatusType.error) := by
  refine ⟨?_, ?_, ?_, ?_, ?_, ?_⟩ <;> intros <;> simp_all [deriveStatus, truthy]

/-- C7 witness: the precedence theorem applied with a nonempty error
message and processing set. -/
theorem deriveStatus_precedence_witness :
    deriveStatus (some "boom") true none false = StatusType.error :=
  (deriveStatus_precedence (some "boom") true none false).1 (by decide)

/-- C8.  A frame that fails to parse (`none`) or whose type is
unrecognized or missing (`unknownType`) leaves the whole session state
unchanged; in particular a ready connection stays ready. -/
theorem unknown_frame_is_noop (s : HookState) :
    handleMessage s none = s ∧
    handleMessage s (some ServerMessage.unknownType) = s ∧
    (s.connectionStatus = ConnectionStatus.ready →
        (handleMessage s (some ServerMessage.unknownType)).connectionStatus
          = ConnectionStatus.ready) := by
  exact ⟨rfl, rfl, fun h => h⟩

/-- State that has received `ready` on an open transport, used to apply
the unknown-frame theorem. -/
def readyDemoState : HookState :=
  handleMessage connectedState (some (ServerMessage.ready "ok" "base"))

/-- C8 witness: the no-op theorem applied at a concrete ready state. -/
theorem unknown_frame_is_noop_witness :
    (handleMessage readyDemoState (some ServerMessage.unknownType)).connectionStatus
      = ConnectionStatus.ready :=
  (unknown_frame_is_noop readyDemoState).2.2 (by decide)

/-- C9 counterexample: a successful `result` event does not reset the
stored error message — the result case clears only the processing flag. -/
theorem result_event_does_not_clear_error :
    (handleMessage { initialState with error := some "server boom" }
        (some (ServerMessage.result sampleResult))).error = some "server boom" ∧
    (some "server boom" : Option String) ≠ none ∧
    sampleResult.success = true := by
  decide

/-- C9 amended: the error message is cleared by a transition to ready
and by a `recording_started` event; a `result` event leaves it
unchanged. -/
theorem error_clearing_events (s : HookState) (m mo : String)
    (msg : Option String) (r : ResultMessage) :
    (handleMessage s (some (ServerMessage.ready m mo))).error = none ∧
    (handleMessage s (some (ServerMessage.recording_started msg))).error = none ∧
    (handleMessage s (some (ServerMessage.result r))).error = s.error := by
  exact ⟨rfl, rfl, rfl⟩

set_option maxRecDepth 4000 in
/-- C10.  `getBrailleDots` returns `[]` outside the braille block
U+2800..U+28FF, and on `0x2800 + o` it returns exactly the dot numbers
`d` in 1..8 whose bit `d-1` is set in `o`, in strictly increasing
order. -/
theorem getBrailleDots_spec :
    (∀ c : Nat, c < 0x2800 ∨ 0x28FF < c → getBrailleDots c = []) ∧
    (∀ o : Nat, o ≤ 0xFF →
        getBrailleDots (0x2800 + o)
          = ((List.range 8).filter (fun i => o.testBit i)).map (fun i => i + 1)) ∧
    (∀ o : Nat, o ≤ 0xFF → List.Pairwise (· < ·) (getBrailleDots (0x2800 + o))) ∧
    (∀ o : Nat, o ≤ 0xFF → ∀ d : Nat,
        d ∈ getBrailleDots (0x2800 + o) ↔ 1 ≤ d ∧ d ≤ 8 ∧ o.testBit (d - 1)) := by
  have h2 : ∀ o : Nat, o ≤ 0xFF →
      getBrailleDots (0x2800 + o)
        = ((List.range 8).filter (fun i => o.testBit i)).map (fun i => i + 1) := by
    decide
  refine ⟨?_, h2, ?_, ?_⟩
  · intro c h
    simp [getBrailleDots, h]
  · intro o ho
    rw [h2 o ho]
    simp only [List.pairwise_map]
    exact List.Pairwise.filter _ ((List.pairwise_lt_range 8).imp (fun h => by omega))
  · intro o ho d
    rw [h2 o ho]
    simp only [List.mem_map, List.mem_filter, List.mem_range]
    constructor
    · rintro ⟨i, ⟨hi8, hbit⟩, rfl⟩
      exact ⟨by omega, by omega, by simpa using hbit⟩
    · rintro ⟨h1, h8, hbit⟩
      exact ⟨d - 1, ⟨by omega, by simpa using hbit⟩, by omega⟩

/-- C10 witness: the spec theorem applied at the code points 65 (outside
the block) and U+281B (dots 1, 2, 4, 5). -/
theorem getBrailleDots_spec_witness :
    getBrailleDots 65 = [] ∧
    getBrailleDots (0x2800 + 0x1B)
      = ((List.range 8).filter (fun i => Nat.testBit 0x1B i)).map (fun i => i + 1) ∧
    List.Pairwise (· < ·) (getBrailleDots (0x2800 + 0x1B)) ∧
    (4 ∈ getBrailleDots (0x2800 + 0x1B) ↔
      1 ≤ 4 ∧ 4 ≤ 8 ∧ Nat.testBit 0x1B 3) :=
  ⟨getBrailleDots_spec.1 65 (by decide),
   getBrailleDots_spec.2.1 0x1B (by decide),
   getBrailleDots_spec.2.2.1 0x1B (by decide),
   getBrailleDots_spec.2.2.2 0x1B (by decide) 4⟩
